import Mathlib

/-!
Verification development for the tg-notify time-tracking bot
(`bot.py`, `admin.py`).  The definitions below are a shallow embedding of
the conversation/session workflow engine: calendar rendering and
navigation (`generate_calendar`, `handle_calendar`,
`handle_report_calendar`), pagination (`show_my_entries_page`,
`AdminManager.get_projects_keyboard`), token parsing
(`select_project`, `handle_entries_pagination`) and the add-entry
wizard driven by the `ConversationHandler` declared in `main`.

Modelling conventions:
* Python `dict` session context (`context.user_data`) becomes a record of
  `Option` fields; a key that is absent is `none`, a key stored with
  value `None` (the description) is `some none`.
* A Python exception escaping a handler is the `raised := true` flag of a
  step result; the handler's remaining statements (in particular a
  `context.user_data.clear()` placed after a failing call) do not run.
* Machine dates are triples of naturals; `datetime` comparison on dates
  is lexicographic, `timedelta.days` between two dates is the difference
  of their rata-die numbers.
-/

namespace TgNotify

/-! ## Dates (proleptic Gregorian, as used by `datetime`) -/

def isLeap (y : Nat) : Bool := y % 4 == 0 && (y % 100 != 0 || y % 400 == 0)

def monthDays (leap : Bool) : List Nat :=
  [31, if leap then 29 else 28, 31, 30, 31, 30, 31, 31, 30, 31, 30, 31]

/-- Number of days of month `m` (1-12) of year `y`. -/
def daysInMonth (y m : Nat) : Nat := (monthDays (isLeap y)).getD (m - 1) 0

/-- Days of year `y` that lie strictly before month `m`. -/
def daysBeforeMonth (y m : Nat) : Nat := ((monthDays (isLeap y)).take (m - 1)).sum

/-- Rata-die day number of (y, m, d): day 1 is 0001-01-01 (a Monday in the
proleptic Gregorian calendar used by `datetime`). -/
def rataDie (y m d : Nat) : Nat :=
  365 * (y - 1) + (y - 1) / 4 - (y - 1) / 100 + (y - 1) / 400 + daysBeforeMonth y m + d

/-- `datetime.date.weekday()`: Monday = 0 ... Sunday = 6. -/
def pyWeekday (y m d : Nat) : Nat := (rataDie y m d - 1) % 7

/-- A calendar date as carried in callback tokens. -/
structure RDate where
  y : Nat
  m : Nat
  d : Nat
deriving DecidableEq, Repr

/-- Range accepted by `datetime(year, month, day)`: this is what the
`strptime('%Y-%m-%d')` re-parse of a stored date string checks. -/
def isValidDate (a : RDate) : Bool :=
  1 ≤ a.y && a.y ≤ 9999 && 1 ≤ a.m && a.m ≤ 12 && 1 ≤ a.d && a.d ≤ daysInMonth a.y a.m

/-- `datetime` comparison of two dates: lexicographic on (y, m, d). -/
def dateLt (a b : RDate) : Bool :=
  a.y < b.y || (a.y == b.y && (a.m < b.m || (a.m == b.m && a.d < b.d)))

/-- `(b - a).days` for two dates, via rata-die numbers. -/
def dateSpanDays (a b : RDate) : Int :=
  (rataDie b.y b.m b.d : Int) - (rataDie a.y a.m a.d : Int)

/-- `f"{d:02d}.{m:02d}.{y}"` as built for `report_start_date_formatted`. -/
def pad2 (n : Nat) : String := if n < 10 then "0" ++ toString n else toString n

def formatDMY (a : RDate) : String := pad2 a.d ++ "." ++ pad2 a.m ++ "." ++ toString a.y

/-! ## Python `int()` / `float()` on the strings the bot handles -/

/-- Whitespace stripped by Python's `str.strip()` (ASCII part). -/
def isWs (c : Char) : Bool := c == ' ' || c == '\t' || c == '\n' || c == '\r'

def stripWs (cs : List Char) : List Char :=
  ((cs.dropWhile isWs).reverse.dropWhile isWs).reverse

/-- Value of a nonempty all-ASCII-digit character list. -/
def digitsToNat? (cs : List Char) : Option Nat :=
  if cs ≠ [] ∧ cs.all Char.isDigit then
    some (cs.foldl (fun a c => 10 * a + (c.toNat - 48)) 0)
  else none

/-- `int(s)` on the ASCII strings appearing in callback tokens: optional
surrounding whitespace, optional sign, then a nonempty run of digits;
anything else raises `ValueError` (modelled as `none`). -/
def pyInt? (s : String) : Option Int :=
  match stripWs s.data with
  | '+' :: ds => (digitsToNat? ds).map Int.ofNat
  | '-' :: ds => (digitsToNat? ds).map (fun n => -(n : Int))
  | ds => (digitsToNat? ds).map Int.ofNat

/-- Split a character list at every occurrence of `c`, keeping empty
pieces — the behaviour of Python's `str.split(sep)` and of the callback
token decomposition `query.data.split("_")`. -/
def splitCharAux (c : Char) : List Char → List Char → List (List Char)
  | [], acc => [acc.reverse]
  | x :: xs, acc =>
    if x = c then acc.reverse :: splitCharAux c xs []
    else splitCharAux c xs (x :: acc)

def splitChar (c : Char) (cs : List Char) : List (List Char) := splitCharAux c cs []

def splitUnderscore (s : String) : List String := (splitChar '_' s.data).map String.mk

def natDigitsVal (cs : List Char) : Nat :=
  cs.foldl (fun a c => 10 * a + (c.toNat - 48)) 0

/-- Mantissa of a Python float literal: `digits`, `digits.digits`,
`digits.` or `.digits` (at least one digit overall).  Returns the pair
(numerator, number of fractional digits) so that the exact value is
`numerator / 10 ^ fracLen`; `none` on anything else. -/
def mantissaParts? (cs : List Char) : Option (Nat × Nat) :=
  match splitChar '.' cs with
  | [w] => (digitsToNat? w).map (fun n => (n, 0))
  | [w, f] =>
    if w.all Char.isDigit ∧ f.all Char.isDigit ∧ (w ≠ [] ∨ f ≠ []) then
      some (natDigitsVal w * 10 ^ f.length + natDigitsVal f, f.length)
    else none
  | _ => none

/-- `float(s)` on finite decimal literals (optional sign, decimal
mantissa, optional `e`/`E` exponent), evaluated exactly in ℚ.  The
special spellings `inf`/`nan` are outside the model; the user inputs the
bot validates are plain decimal strings. -/
def pyFloat? (s : String) : Option ℚ :=
  let t := (stripWs s.data).map (fun c => if c = 'E' then 'e' else c)
  let signed : Bool × List Char :=
    match t with
    | '+' :: r => (false, r)
    | '-' :: r => (true, r)
    | r => (false, r)
  let sgn : Int := if signed.1 then -1 else 1
  match splitChar 'e' signed.2 with
  | [mc] => (mantissaParts? mc).map (fun p => mkRat (sgn * p.1) (10 ^ p.2))
  | [mc, ec] =>
    let esigned : Bool × List Char :=
      match ec with
      | '+' :: r => (true, r)
      | '-' :: r => (false, r)
      | r => (true, r)
    match mantissaParts? mc, digitsToNat? esigned.2 with
    | some p, some e =>
      if esigned.1 then some (mkRat (sgn * p.1 * 10 ^ e) (10 ^ p.2))
      else some (mkRat (sgn * p.1) (10 ^ p.2 * 10 ^ e))
    | _, _ => none
  | _ => none

/-- `str.replace(',', '.')` as applied in `handle_hours_input`. -/
def commaToDot (s : String) : String :=
  String.mk (s.data.map (fun c => if c = ',' then '.' else c))

/-! ## `calendar.monthcalendar` and `generate_calendar` -/

/-- Split a list of day numbers into calendar weeks of seven
(`k` counts the free slots of the week being assembled, `acc` holds its
cells in reverse). -/
def chunk7Go : List Nat → Nat → List Nat → List (List Nat)
  | [], _, acc => if acc.isEmpty then [] else [acc.reverse]
  | x :: xs, 0, acc => acc.reverse :: chunk7Go xs 6 [x]
  | x :: xs, k + 1, acc => chunk7Go xs k (x :: acc)

def chunk7 (l : List Nat) : List (List Nat) := chunk7Go l 7 []

/-- `calendar.monthcalendar(year, month)` with the default Monday-first
ordering: weeks of seven day numbers, `0` for padding cells outside the
month. -/
def monthcalendar (year month : Nat) : List (List Nat) :=
  let fw := pyWeekday year month 1
  let n := daysInMonth year month
  let cells := List.replicate fw 0 ++ (List.range n).map (· + 1)
  let pad := (7 - cells.length % 7) % 7
  chunk7 (cells ++ List.replicate pad 0)

/-- Callback payload of one calendar button (`callback_data`). -/
inductive CalCb
  | ignore
  | prev (y m : Nat)
  | next (y m : Nat)
  | select (y m d : Nat)
deriving DecidableEq, Repr

/-- One inline keyboard button of the calendar grid. -/
structure CalBtn where
  label : String
  data : CalCb
deriving DecidableEq, Repr

/-- `generate_calendar(year, month)` (the past-only, add-entry calendar):
header row, weekday row, then one row per week where day-0 padding cells
and days after `today` are inert `cal_ignore` buttons and every other day
is a `cal_select_{y}_{m}_{d}` button. -/
def generate_calendar (today : RDate) (year month : Nat) : List (List CalBtn) :=
  let header : List CalBtn :=
    [⟨"◀️", .prev year month⟩, ⟨toString month ++ " " ++ toString year, .ignore⟩,
     ⟨"▶️", .next year month⟩]
  let wdays : List CalBtn :=
    ["Пн", "Вт", "Ср", "Чт", "Пт", "Сб", "Вс"].map (fun w => ⟨w, .ignore⟩)
  let dayRows : List (List CalBtn) :=
    (monthcalendar year month).map (fun week =>
      week.map (fun day =>
        if day = 0 then ⟨" ", .ignore⟩
        else if dateLt today ⟨year, month, day⟩ then
          ⟨"(" ++ toString day ++ ")", .ignore⟩
        else ⟨toString day, .select year month day⟩))
  header :: wdays :: dayRows

/-- The day-cell grid of the past-only calendar (everything below the two
header rows). -/
def calendarDayRows (today : RDate) (year month : Nat) : List (List CalBtn) :=
  (generate_calendar today year month).drop 2

/-! ## Calendar navigation (`handle_calendar`, `handle_report_calendar`) -/

/-- The cursor reached by one previous/next navigation step, exactly as
computed in `handle_calendar` / `handle_report_calendar`: decrement or
increment the month, wrapping 0 to December of the previous year and 13
to January of the next year. -/
def calNavTarget (isPrev : Bool) (y m : Int) : Int × Int :=
  if isPrev then
    if m - 1 = 0 then (y - 1, 12) else (y, m - 1)
  else
    if m + 1 = 13 then (y + 1, 1) else (y, m + 1)

/-! ## Pagination (`show_my_entries_page`, `get_projects_keyboard`) -/

/-- Outcome of `show_my_entries_page` for a given page: either the
"no entries" message with no keyboard at all, or a page view with its
offset, number of listed entries, page count, and which navigation
buttons the keyboard holds. -/
inductive EntriesRender
  | empty
  | pageView (offset visible totalPages : Nat) (hasPrev hasNext : Bool)
deriving DecidableEq, Repr

/-- `show_my_entries_page(update, context, page)` over the user's entry
list: offset = page*5, the page slice is `LIMIT 5 OFFSET offset`, the
"no entries" branch fires when the slice is empty, otherwise
`total_pages = (total + 4) // 5` and prev/next buttons render for
`page > 0` / `page < total_pages - 1`. -/
def show_my_entries_page (entries : List Nat) (page : Nat) : EntriesRender :=
  let entries_per_page := 5
  let offset := page * entries_per_page
  let total_entries := entries.length
  let pageEntries := (entries.drop offset).take entries_per_page
  if pageEntries.isEmpty then .empty
  else
    let total_pages := (total_entries + entries_per_page - 1) / entries_per_page
    .pageView offset pageEntries.length total_pages
      (decide (0 < page)) (decide (page < total_pages - 1))

/-- `AdminManager.get_projects_keyboard`: `total_pages =
(len(projects) - 1) // page_size + 1 if projects else 1`. -/
def get_projects_total_pages (nprojects page_size : Nat) : Nat :=
  if nprojects = 0 then 1 else (nprojects - 1) / page_size + 1

/-- The (prev, next) navigation buttons rendered by
`get_projects_keyboard`: prev for `page > 0`, next for
`page < total_pages - 1`. -/
def get_projects_nav (nprojects page_size page : Nat) : Bool × Bool :=
  (decide (0 < page), decide (page < get_projects_total_pages nprojects page_size - 1))

/-! ## Token argument parsing (`select_project`, `handle_entries_pagination`)

`select_project` runs `int(query.data.split("_")[1])` and
`handle_entries_pagination` runs `int(query.data.split("_")[2])`; neither
is wrapped in a `try`.  A failing `int()` is a `ValueError` escaping the
handler, a missing list index an `IndexError`. -/

def select_project_parse (data : String) : Except String Int :=
  match splitUnderscore data with
  | _ :: a :: _ =>
    match pyInt? a with
    | some n => .ok n
    | none => .error "ValueError"
  | _ => .error "IndexError"

def handle_entries_pagination_parse (data : String) : Except String Int :=
  match splitUnderscore data with
  | _ :: _ :: a :: _ =>
    match pyInt? a with
    | some n => .ok n
    | none => .error "ValueError"
  | _ => .error "IndexError"

/-! ## Session context and the workflow engine

The `ConversationHandler` built in `main` has states `SELECTING_PROJECT`,
`ENTERING_HOURS`, `ENTERING_DESCRIPTION`, `SELECTING_DATE`; `IDLE` stands
for "no conversation active" (also `ConversationHandler.END`).  All
handlers are registered in the default group, so for each update exactly
the first matching handler runs: the conversation's entry points when no
conversation is active, the active state's handlers plus the fallbacks
when one is, and otherwise the bare `CallbackQueryHandler(button_handler)`
or `MessageHandler(handle_text_message)`.  A state value returned by a
handler *outside* the conversation (e.g. `handle_admin` returning
`ENTERING_DESCRIPTION`, or `select_project` reached via `button_handler`)
is discarded by the framework and does not move the conversation. -/

inductive WState
  | idle
  | selectingProject
  | enteringHours
  | enteringDescription
  | selectingDate
deriving DecidableEq, Repr

/-- `context.user_data`: absent key = `none`; the description key may be
present holding Python `None` (= `some none`). -/
structure Ctx where
  selected_project_id : Option Nat := none
  selected_project_name : Option String := none
  selected_hours : Option ℚ := none
  description : Option (Option String) := none
  report_start_date : Option RDate := none
  report_start_date_formatted : Option String := none
  admin_target_user_id : Option Nat := none
  admin_action : Option String := none
deriving DecidableEq, Repr

/-- `context.user_data.clear()`. -/
def clearCtx : Ctx := {}

/-- External collaborators and ambient values, fixed for one event:
`is_banned`, `is_admin`, the active project rows, whether the
`INSERT INTO time_entries` call succeeds, and `datetime.now()`. -/
structure Env where
  banned : Bool
  isAdmin : Bool
  projects : List (Nat × String)
  saveOk : Bool
  currentYear : Int
  today : RDate
deriving DecidableEq, Repr

/-- Inbound events of the wizard: the callback tokens it renders plus
free-text messages. -/
inductive Ev
  | cbAddHours
  | cbSelectProject (pid : Nat)
  | cbHoursPreset (v : ℚ)
  | cbHoursCustom
  | cbSkipDescription
  | cbDatePreset (d : RDate)
  | cbDateCustom
  | cbCalIgnore
  | cbCalNav (isPrev : Bool) (y m : Int)
  | cbCalSelect (d : RDate)
  | cbBackToMain
  | cbAdminAddProject
  | textInput (s : String)
deriving DecidableEq, Repr

/-- Outbound rendering instructions (message edits/replies), abstracted
to tags carrying the data the claims mention. -/
inductive Render
  | banNotice
  | noProjects
  | projectList
  | hoursMenu (pname : String)
  | customHoursPrompt (pname : String)
  | hoursRangeError
  | hoursFormatError
  | descPrompt (pname : String) (h : ℚ)
  | datePrompt
  | calendarView (y m : Int)
  | saveSuccess (d : RDate)
  | unavailablePeriod
  | projectCreateAttempt (name : String)
  | projectNamePrompt
  | accessDenied
  | mainMenu
  | dateHint
  | otherText
  | reportCalendarView (y m : Int)
  | reportStartChosen (d : RDate)
  | reportDateError
  | reportEndBeforeStart
  | reportSpanTooLong
  | reportGenerated (targetUser : Nat) (start stop : RDate)
deriving DecidableEq, Repr

/-- What one Python handler invocation did: `ret` is the value it
returned (`none` when it returns `None` or never returns), `raised` marks
an exception escaping it, in which case `ctx` reflects only the mutations
made before the raise. -/
structure HRes where
  ret : Option WState := none
  ctx : Ctx
  renders : List Render := []
  raised : Bool := false
deriving DecidableEq, Repr

/-- Result of dispatching one event: the conversation state afterwards,
the session context, what was rendered, and whether an exception escaped
the handler. -/
structure StepResult where
  state : WState
  ctx : Ctx
  renders : List Render
  raised : Bool
deriving DecidableEq, Repr

/-- Interpret a handler result when the handler ran as part of the
`ConversationHandler`: its return value moves the conversation (`END` is
modelled as `idle`, returning `None` keeps the state); if it raised, the
state is untouched. -/
def asConv (s : WState) (r : HRes) : StepResult :=
  ⟨if r.raised then s else r.ret.getD s, r.ctx, r.renders, r.raised⟩

/-- Interpret a handler result when the handler ran outside the
conversation (via `button_handler` / `handle_text_message`): its return
value is discarded, so the conversation state never moves. -/
def asBtn (s : WState) (r : HRes) : StepResult :=
  ⟨s, r.ctx, r.renders, r.raised⟩

/-- `button_handler`'s ban gate: every callback whose token does not
start with `admin_` is answered with the ban notice when the user is
banned, leaving the context untouched. -/
def btnGate (env : Env) (s : WState) (ctx : Ctx) (r : HRes) : StepResult :=
  if env.banned then ⟨s, ctx, [.banNotice], false⟩ else asBtn s r

/-- `SELECT name FROM projects WHERE id = %s` / `fetchone()`. -/
def lookupProject (ps : List (Nat × String)) (pid : Nat) : Option String :=
  (ps.find? (fun p => p.1 == pid)).map Prod.snd

/-- `start_add_hours`: banned → ban notice and `END`; no projects →
notice and `END`; else render the project list and enter
`SELECTING_PROJECT`. -/
def start_add_hours_h (env : Env) (ctx : Ctx) : HRes :=
  if env.banned then ⟨some .idle, ctx, [.banNotice], false⟩
  else if env.projects.isEmpty then ⟨some .idle, ctx, [.noProjects], false⟩
  else ⟨some .selectingProject, ctx, [.projectList], false⟩

/-- `select_project`: stores `selected_project_id` first, then looks the
name up; `fetchone()` returning no row makes the `[0]` subscript raise
with the id already stored. -/
def select_project_h (env : Env) (ctx : Ctx) (pid : Nat) : HRes :=
  let ctx1 := { ctx with selected_project_id := some pid }
  match lookupProject env.projects pid with
  | none => ⟨none, ctx1, [], true⟩
  | some pname =>
    ⟨some .enteringHours, { ctx1 with selected_project_name := some pname },
      [.hoursMenu pname], false⟩

/-- `select_hours`, `hours_custom` branch: re-prompts; the prompt text
subscripts `selected_project_name`, raising `KeyError` if absent. -/
def select_hours_custom_h (ctx : Ctx) : HRes :=
  match ctx.selected_project_name with
  | none => ⟨none, ctx, [], true⟩
  | some p => ⟨some .enteringHours, ctx, [.customHoursPrompt p], false⟩

/-- `select_hours`, preset branch: stores the hours, then renders the
description prompt (which subscripts the project name). -/
def select_hours_preset_h (ctx : Ctx) (v : ℚ) : HRes :=
  let ctx1 := { ctx with selected_hours := some v }
  match ctx.selected_project_name with
  | none => ⟨none, ctx1, [], true⟩
  | some p => ⟨some .enteringDescription, ctx1, [.descPrompt p v], false⟩

/-- `handle_hours_input`: `float(text.replace(',', '.'))`, rejected with
a retry message when the parse fails (`ValueError`) or
`hours <= 0 or hours > 24`; otherwise the hours are stored and the
description prompt renders. -/
def handle_hours_input_h (ctx : Ctx) (s : String) : HRes :=
  match pyFloat? (commaToDot s) with
  | none => ⟨some .enteringHours, ctx, [.hoursFormatError], false⟩
  | some h =>
    if h ≤ 0 ∨ 24 < h then ⟨some .enteringHours, ctx, [.hoursRangeError], false⟩
    else
      let ctx1 := { ctx with selected_hours := some h }
      match ctx.selected_project_name with
      | none => ⟨none, ctx1, [], true⟩
      | some p => ⟨some .enteringDescription, ctx1, [.descPrompt p h], false⟩

/-- `show_date_selection`: its message text subscripts both
`selected_project_name` and `selected_hours`. -/
def show_date_selection_h (ctx : Ctx) : HRes :=
  match ctx.selected_project_name, ctx.selected_hours with
  | some _, some _ => ⟨some .selectingDate, ctx, [.datePrompt], false⟩
  | _, _ => ⟨none, ctx, [], true⟩

/-- `skip_description`: stores `description = None`, then shows the date
selection. -/
def skip_description_h (ctx : Ctx) : HRes :=
  show_date_selection_h { ctx with description := some none }

/-- `handle_description_input`: the admin `add_project` capture clears
the whole context and ends; otherwise the stripped text becomes the
description and the date selection shows. -/
def handle_description_input_h (env : Env) (ctx : Ctx) (s : String) : HRes :=
  if ctx.admin_action = some "add_project" then
    ⟨some .idle, clearCtx,
      if env.isAdmin then [.projectCreateAttempt (String.mk (stripWs s.data))] else [],
      false⟩
  else
    show_date_selection_h
      { ctx with description := some (some (String.mk (stripWs s.data))) }

/-- The save portion shared by `select_date` (today/yesterday presets)
and `handle_calendar`'s `cal_select_` branch: subscripts
`selected_project_id` and `selected_hours` (`KeyError` if absent), calls
`add_time_entry` with no `try` around it, then builds the confirmation
text — which subscripts `selected_project_name` (`KeyError` if absent,
with the entry already persisted) — and only after that renders it and
clears the context. -/
def save_entry_commit_h (env : Env) (ctx : Ctx) (d : RDate) : HRes :=
  match ctx.selected_project_id with
  | none => ⟨none, ctx, [], true⟩
  | some _ =>
    match ctx.selected_hours with
    | none => ⟨none, ctx, [], true⟩
    | some _ =>
      if env.saveOk then
        match ctx.selected_project_name with
        | none => ⟨none, ctx, [], true⟩
        | some _ => ⟨some .idle, clearCtx, [.saveSuccess d], false⟩
      else ⟨none, ctx, [], true⟩

/-- `select_date`, `date_custom` branch: renders the calendar for the
current month; the caption subscripts the project name and hours. -/
def select_date_custom_h (env : Env) (ctx : Ctx) : HRes :=
  match ctx.selected_project_name, ctx.selected_hours with
  | some _, some _ =>
    ⟨some .selectingDate, ctx, [.calendarView (env.today.y : Int) (env.today.m : Int)], false⟩
  | _, _ => ⟨none, ctx, [], true⟩

/-- `handle_calendar`, `cal_prev_`/`cal_next_` branch: computes the
adjacent month, answers "Недоступный период" and returns (no state
change, no re-render) when the target year leaves
`[current_year - 1, current_year]`, else re-renders the calendar (whose
caption subscripts the project name and hours). -/
def handle_calendar_nav_h (env : Env) (ctx : Ctx) (isPrev : Bool) (y m : Int) : HRes :=
  let t := calNavTarget isPrev y m
  if t.1 < env.currentYear - 1 ∨ env.currentYear < t.1 then
    ⟨none, ctx, [.unavailablePeriod], false⟩
  else
    match ctx.selected_project_name, ctx.selected_hours with
    | some _, some _ => ⟨some .selectingDate, ctx, [.calendarView t.1 t.2], false⟩
    | _, _ => ⟨none, ctx, [], true⟩

/-- `back_to_main`: clears the context and shows the main menu. -/
def back_to_main_h (_ctx : Ctx) : HRes :=
  ⟨some .idle, clearCtx, [.mainMenu], false⟩

/-- `handle_admin`, `add_project` branch (reached through
`button_handler`, which skips the ban gate for `admin_` tokens): prompts
for a project name and tags the context with `admin_action`; the
`ENTERING_DESCRIPTION` it returns is discarded by the framework. -/
def handle_admin_add_project_h (env : Env) (ctx : Ctx) : HRes :=
  if env.isAdmin then
    ⟨some .enteringDescription, { ctx with admin_action := some "add_project" },
      [.projectNamePrompt], false⟩
  else ⟨none, ctx, [.accessDenied], false⟩

/-- `handle_text_message`: ban gate, then the admin project-name capture,
then the reply-keyboard dispatch (of which only "➕ Добавить часы"
touches the wizard; the other menu entries only render). -/
def handle_text_message_h (env : Env) (ctx : Ctx) (s : String) : HRes :=
  if env.banned then ⟨none, ctx, [.banNotice], false⟩
  else if ctx.admin_action = some "add_project" then handle_description_input_h env ctx s
  else if s = "➕ Добавить часы" then start_add_hours_h env ctx
  else ⟨none, ctx, [.otherText], false⟩

/-- One dispatch of an inbound event against the handler stack, following
the first-match rule described above. -/
def step (env : Env) (s : WState) (ctx : Ctx) (e : Ev) : StepResult :=
  match e with
  | .cbAddHours =>
    if s = .idle then asConv s (start_add_hours_h env ctx)
    else btnGate env s ctx (start_add_hours_h env ctx)
  | .cbSelectProject pid =>
    if s = .selectingProject then asConv s (select_project_h env ctx pid)
    else btnGate env s ctx (select_project_h env ctx pid)
  | .cbHoursPreset v =>
    if s = .enteringHours then asConv s (select_hours_preset_h ctx v)
    else btnGate env s ctx (select_hours_preset_h ctx v)
  | .cbHoursCustom =>
    if s = .enteringHours then asConv s (select_hours_custom_h ctx)
    else btnGate env s ctx (select_hours_custom_h ctx)
  | .cbSkipDescription =>
    if s = .enteringDescription then asConv s (skip_description_h ctx)
    else btnGate env s ctx (skip_description_h ctx)
  | .cbDatePreset d =>
    if s = .selectingDate then asConv s (save_entry_commit_h env ctx d)
    else btnGate env s ctx (save_entry_commit_h env ctx d)
  | .cbDateCustom =>
    if s = .selectingDate then asConv s (select_date_custom_h env ctx)
    else btnGate env s ctx (select_date_custom_h env ctx)
  | .cbCalIgnore =>
    if s = .selectingDate then asConv s ⟨none, ctx, [], false⟩
    else btnGate env s ctx ⟨none, ctx, [], false⟩
  | .cbCalNav p y m =>
    if s = .selectingDate then asConv s (handle_calendar_nav_h env ctx p y m)
    else btnGate env s ctx (handle_calendar_nav_h env ctx p y m)
  | .cbCalSelect d =>
    if s = .selectingDate then asConv s (save_entry_commit_h env ctx d)
    else btnGate env s ctx (save_entry_commit_h env ctx d)
  | .cbBackToMain =>
    if s = .idle then btnGate env s ctx (back_to_main_h ctx)
    else asConv s (back_to_main_h ctx)
  | .cbAdminAddProject => asBtn s (handle_admin_add_project_h env ctx)
  | .textInput str =>
    match s with
    | .enteringHours => asConv s (handle_hours_input_h ctx str)
    | .enteringDescription => asConv s (handle_description_input_h env ctx str)
    | .selectingDate => asConv s ⟨some .selectingDate, ctx, [.dateHint], false⟩
    | .idle =>
      if str = "➕ Добавить часы" then asConv s (start_add_hours_h env ctx)
      else asBtn s (handle_text_message_h env ctx str)
    | .selectingProject => asBtn s (handle_text_message_h env ctx str)

/-- Run an event trace from the initial situation: no conversation, empty
context.  Each event comes with the collaborator environment in force
when it is processed. -/
def runWizard (trace : List (Env × Ev)) : WState × Ctx :=
  trace.foldl
    (fun p x =>
      let r := step x.1 p.1 p.2 x.2
      (r.state, r.ctx))
    (.idle, {})

/-! ## Custom-report calendar (`handle_report_calendar`) and
impersonation targets (`handle_report`, `export_user_csv`) -/

/-- `handle_report_calendar`, `report_cal_prev_`/`report_cal_next_`
branch: adjacent month as in the add-entry calendar, but bounded by
`[current_year - 2, current_year + 1]`. -/
def handle_report_cal_nav_h (env : Env) (ctx : Ctx) (isPrev : Bool) (y m : Int) : HRes :=
  let t := calNavTarget isPrev y m
  if t.1 < env.currentYear - 2 ∨ env.currentYear + 1 < t.1 then
    ⟨none, ctx, [.unavailablePeriod], false⟩
  else ⟨none, ctx, [.reportCalendarView t.1 t.2], false⟩

/-- `handle_report_calendar`, `report_cal_select_` branch.  With no start
stored, the date becomes `report_start_date` (plus its formatted copy).
With a start stored, the range is validated: `strptime` failing on either
stored string is a caught `ValueError` (error answer, no change); an end
before the start or a span of more than 365 days is answered with the
matching rejection and nothing changes; otherwise the custom report is
generated for `admin_target_user_id` if set (else the acting user) and
exactly the two range keys are popped. -/
def handle_report_cal_select_h (userId : Nat) (ctx : Ctx) (d : RDate) : HRes :=
  match ctx.report_start_date with
  | none =>
    ⟨none, { ctx with report_start_date := some d,
                      report_start_date_formatted := some (formatDMY d) },
      [.reportStartChosen d], false⟩
  | some start =>
    match ctx.report_start_date_formatted with
    | none => ⟨none, ctx, [], true⟩
    | some _ =>
      if ¬ (isValidDate start ∧ isValidDate d) then
        ⟨none, ctx, [.reportDateError], false⟩
      else if dateLt d start then
        ⟨none, ctx, [.reportEndBeforeStart], false⟩
      else if 365 < dateSpanDays start d then
        ⟨none, ctx, [.reportSpanTooLong], false⟩
      else
        ⟨none, { ctx with report_start_date := none,
                          report_start_date_formatted := none },
          [.reportGenerated (ctx.admin_target_user_id.getD userId) start d], false⟩

/-- `handle_report`: `target_user_id =
context.user_data.get('admin_target_user_id', user_id)`. -/
def report_target_user (ctx : Ctx) (userId : Nat) : Nat :=
  ctx.admin_target_user_id.getD userId

/-- `export_user_csv`: same target resolution as `handle_report`. -/
def export_csv_target_user (ctx : Ctx) (userId : Nat) : Nat :=
  ctx.admin_target_user_id.getD userId

/-- The context invariant the wizard maintains along every run: a stored
project name implies a stored project id (`select_project` stores the id
before the name, nothing else stores the name, and clearing removes
both). -/
def NamePidInv (p : WState × Ctx) : Prop :=
  p.2.selected_project_name.isSome → p.2.selected_project_id.isSome

/-- Entry access in a week grid. -/
def gridGet (g : List (List CalBtn)) (i j : Nat) : Option CalBtn :=
  (g.get? i).bind (fun row => row.get? j)

/-- Entry access in `monthcalendar`'s grid. -/
def mcGet (year month i j : Nat) : Option Nat :=
  ((monthcalendar year month).get? i).bind (fun row => row.get? j)

/-- A concrete healthy environment: not banned, not admin, one active
project, persistence succeeding, clock at 2024-06-15. -/
def envOk : Env := ⟨false, false, [(1, "P")], true, 2024, ⟨2024, 6, 15⟩⟩

/-- `envOk` with the `INSERT` into `time_entries` failing. -/
def envFail : Env := { envOk with saveOk := false }

/-- `envOk` with the user banned. -/
def envBanned : Env := { envOk with banned := true }

/-- A context mid-wizard, all wizard fields filled. -/
def ctxFull : Ctx :=
  { selected_project_id := some 1, selected_project_name := some "P",
    selected_hours := some (mkRat 2 1), description := some (some "x") }

end TgNotify

namespace TgNotify

/-! ## Helper lemmas -/

theorem foldl_run_inv (P : WState × Ctx → Prop)
    (f : WState × Ctx → Env × Ev → WState × Ctx)
    (hf : ∀ p x, P p → P (f p x)) :
    ∀ (trace : List (Env × Ev)) (p : WState × Ctx),
      P p → P (trace.foldl f p) := by
  intro trace
  induction trace with
  | nil => intro p hp; exact hp
  | cons x xs ih => intro p hp; exact ih (f p x) (hf p x hp)

theorem asBtn_state (s : WState) (r : HRes) : (asBtn s r).state = s := rfl

theorem btnGate_state (env : Env) (s : WState) (ctx : Ctx) (r : HRes) :
    (btnGate env s ctx r).state = s := by
  unfold btnGate
  split
  · rfl
  · rfl

/-- Every single dispatch preserves the name-implies-id invariant. -/
theorem step_preserves_name_pid (env : Env) (s : WState) (c : Ctx) (e : Ev)
    (h : c.selected_project_name.isSome → c.selected_project_id.isSome) :
    (step env s c e).ctx.selected_project_name.isSome →
      (step env s c e).ctx.selected_project_id.isSome := by
  cases e <;>
    simp only [step, asConv, asBtn, btnGate, start_add_hours_h, select_project_h,
      select_hours_custom_h, select_hours_preset_h, handle_hours_input_h,
      show_date_selection_h, skip_description_h, handle_description_input_h,
      save_entry_commit_h, select_date_custom_h, handle_calendar_nav_h,
      back_to_main_h, handle_admin_add_project_h, handle_text_message_h, clearCtx] <;>
    (repeat' split) <;>
    simp_all

/-- The invariant holds at every configuration the wizard can reach. -/
theorem runWizard_name_pid (trace : List (Env × Ev)) :
    NamePidInv (runWizard trace) := by
  unfold runWizard
  refine foldl_run_inv NamePidInv _ ?_ trace (.idle, {}) ?_
  · intro p x hp
    exact step_preserves_name_pid x.1 p.1 p.2 x.2 hp
  · intro h
    simp at h

set_option maxHeartbeats 2000000 in
/-- A dispatch that moves the conversation *into* `ENTERING_DESCRIPTION`
or `SELECTING_DATE` always does so with the hours and the project id
stored (given the name-implies-id invariant at the source
configuration). -/
theorem step_entering_guard (env : Env) (s : WState) (c : Ctx) (e : Ev)
    (h : c.selected_project_name.isSome → c.selected_project_id.isSome)
    (h1 : (step env s c e).state = .enteringDescription ∨
          (step env s c e).state = .selectingDate)
    (h2 : (step env s c e).state ≠ s) :
    (step env s c e).ctx.selected_hours.isSome ∧
      (step env s c e).ctx.selected_project_id.isSome := by
  cases e <;>
    simp only [step, asConv, asBtn, btnGate, start_add_hours_h, select_project_h,
      select_hours_custom_h, select_hours_preset_h, handle_hours_input_h,
      show_date_selection_h, skip_description_h, handle_description_input_h,
      save_entry_commit_h, select_date_custom_h, handle_calendar_nav_h,
      back_to_main_h, handle_admin_add_project_h, handle_text_message_h,
      clearCtx] at h1 h2 ⊢ <;>
    (repeat' split at h1) <;>
    (repeat' split) <;>
    simp_all

end TgNotify


namespace TgNotify

/-! ## Claim C1 -/

/-- C1 counterexample.  The claim says `ENTERING_DESCRIPTION` is never
reachable with `selected_hours`/`selected_project_id` absent.  But a
stale `date_...` callback arriving while the conversation holds
`ENTERING_DESCRIPTION` is not matched by the conversation's handlers, so
`button_handler` routes it to `select_date`, which saves an entry and
runs `context.user_data.clear()`; the `END` it returns is discarded
because it ran outside the conversation.  The resulting configuration
has the conversation still in `ENTERING_DESCRIPTION` with both fields
absent. -/
theorem c1_counterexample :
    (runWizard [(envOk, .cbAddHours), (envOk, .cbSelectProject 1),
        (envOk, .cbHoursPreset (mkRat 2 1)), (envOk, .cbDatePreset ⟨2024, 6, 14⟩)]).1 =
      .enteringDescription ∧
    (runWizard [(envOk, .cbAddHours), (envOk, .cbSelectProject 1),
        (envOk, .cbHoursPreset (mkRat 2 1)), (envOk, .cbDatePreset ⟨2024, 6, 14⟩)]).2.selected_hours =
      none ∧
    (runWizard [(envOk, .cbAddHours), (envOk, .cbSelectProject 1),
        (envOk, .cbHoursPreset (mkRat 2 1)), (envOk, .cbDatePreset ⟨2024, 6, 14⟩)]).2.selected_project_id =
      none := by
  decide

/-- C1 (amended): along every event sequence from the initial
configuration, every dispatch that moves the conversation *into*
`ENTERING_DESCRIPTION` or `SELECTING_DATE` (from a different state)
leaves `selected_hours` and `selected_project_id` set; the fields can
only become absent while one of these states is *held*, through a stale
commit processed outside the conversation. -/
theorem c1_entering_states_guarded (trace : List (Env × Ev)) (env : Env) (e : Ev)
    (h1 : (step env (runWizard trace).1 (runWizard trace).2 e).state = .enteringDescription ∨
          (step env (runWizard trace).1 (runWizard trace).2 e).state = .selectingDate)
    (h2 : (step env (runWizard trace).1 (runWizard trace).2 e).state ≠ (runWizard trace).1) :
    (step env (runWizard trace).1 (runWizard trace).2 e).ctx.selected_hours.isSome ∧
      (step env (runWizard trace).1 (runWizard trace).2 e).ctx.selected_project_id.isSome :=
  step_entering_guard env (runWizard trace).1 (runWizard trace).2 e
    (runWizard_name_pid trace) h1 h2

/-- C1 witness: entering `ENTERING_DESCRIPTION` by choosing the 2h
preset after picking project 1. -/
theorem c1_entering_states_guarded_witness :
    (step envOk (runWizard [(envOk, .cbAddHours), (envOk, .cbSelectProject 1)]).1
        (runWizard [(envOk, .cbAddHours), (envOk, .cbSelectProject 1)]).2
        (.cbHoursPreset (mkRat 2 1))).ctx.selected_hours.isSome ∧
      (step envOk (runWizard [(envOk, .cbAddHours), (envOk, .cbSelectProject 1)]).1
        (runWizard [(envOk, .cbAddHours), (envOk, .cbSelectProject 1)]).2
        (.cbHoursPreset (mkRat 2 1))).ctx.selected_project_id.isSome :=
  c1_entering_states_guarded [(envOk, .cbAddHours), (envOk, .cbSelectProject 1)]
    envOk (.cbHoursPreset (mkRat 2 1)) (by decide) (by decide)

/-! ## Claim C2 -/

/-- C2 counterexample.  The claim says a failing save at a terminal
commit is caught, a failure notice renders and the context is still
cleared.  In `select_date` the `add_time_entry` call is not inside any
`try`: when the insert fails the exception escapes the handler
(`raised = true`), nothing is rendered, and the context is left exactly
as it was — the clear after the call never runs. -/
theorem c2_counterexample :
    step envFail .selectingDate ctxFull (.cbDatePreset ⟨2024, 6, 15⟩) =
      ⟨.selectingDate, ctxFull, [], true⟩ := by
  decide

/-- C2 (amended): at both terminal commit transitions (date preset and
calendar day), a failing persistence call lets the exception escape with
no notice rendered and the context unchanged (the wizard stays in
`SELECTING_DATE`); only a successful save — whose confirmation text also
needs the stored project name — renders the confirmation and clears the
context. -/
theorem c2_save_failure_uncaught (env : Env) (ctx : Ctx) (pid : Nat)
    (pname : String) (h : ℚ) (d : RDate)
    (hpid : ctx.selected_project_id = some pid)
    (hname : ctx.selected_project_name = some pname)
    (hh : ctx.selected_hours = some h) :
    (env.saveOk = false →
      step env .selectingDate ctx (.cbDatePreset d) = ⟨.selectingDate, ctx, [], true⟩ ∧
      step env .selectingDate ctx (.cbCalSelect d) = ⟨.selectingDate, ctx, [], true⟩) ∧
    (env.saveOk = true →
      step env .selectingDate ctx (.cbDatePreset d) =
        ⟨.idle, clearCtx, [.saveSuccess d], false⟩ ∧
      step env .selectingDate ctx (.cbCalSelect d) =
        ⟨.idle, clearCtx, [.saveSuccess d], false⟩) := by
  constructor <;> intro hs <;>
    simp [step, asConv, save_entry_commit_h, hpid, hname, hh, hs]

/-- C2 witness: the failing and the succeeding save at a concrete
configuration. -/
theorem c2_save_failure_uncaught_witness :
    step envFail .selectingDate ctxFull (.cbDatePreset ⟨2024, 6, 14⟩) =
      ⟨.selectingDate, ctxFull, [], true⟩ ∧
    step envOk .selectingDate ctxFull (.cbDatePreset ⟨2024, 6, 14⟩) =
      ⟨.idle, clearCtx, [.saveSuccess ⟨2024, 6, 14⟩], false⟩ :=
  ⟨((c2_save_failure_uncaught envFail ctxFull 1 "P" (mkRat 2 1) ⟨2024, 6, 14⟩
      rfl rfl rfl).1 rfl).1,
   ((c2_save_failure_uncaught envOk ctxFull 1 "P" (mkRat 2 1) ⟨2024, 6, 14⟩
      rfl rfl rfl).2 rfl).1⟩

/-! ## Claim C9 -/

/-- C9 counterexample.  The claim says a ban-detected event renders the
notice, moves to `IDLE` and clears the session context.  The ban gates in
`button_handler`, `handle_text_message` and `start_add_hours` render the
notice and return without touching `context.user_data`: here a banned
user with a leftover wizard field keeps it. -/
theorem c9_counterexample :
    step envBanned .idle { selected_hours := some (mkRat 2 1) }
        (.cbDatePreset ⟨2024, 6, 15⟩) =
      ⟨.idle, { selected_hours := some (mkRat 2 1) }, [.banNotice], false⟩ ∧
    ({ selected_hours := some (mkRat 2 1) } : Ctx) ≠ clearCtx := by
  decide

/-- C9 (amended): with no conversation active, every non-admin action of
a banned user renders the ban notice and is dropped with the session
context left exactly unchanged — it is not cleared. -/
theorem c9_ban_notice_context_kept (env : Env) (ctx : Ctx) (e : Ev)
    (hb : env.banned = true) (he : e ≠ .cbAdminAddProject) :
    step env .idle ctx e = ⟨.idle, ctx, [.banNotice], false⟩ := by
  cases e <;>
    simp_all [step, btnGate, asConv, asBtn, start_add_hours_h, handle_text_message_h]

/-- C9 witness: a banned user pressing the add-hours button. -/
theorem c9_ban_notice_context_kept_witness :
    step envBanned .idle ctxFull .cbAddHours = ⟨.idle, ctxFull, [.banNotice], false⟩ :=
  c9_ban_notice_context_kept envBanned ctxFull .cbAddHours rfl (by decide)

end TgNotify

namespace TgNotify

/-! ## Claim C8 -/

/-- C3 counterexample.  The claim says a malformed embedded argument is a
guard failure that never raises.  `select_project` runs
`int(query.data.split("_")[1])` and `handle_entries_pagination` runs
`int(query.data.split("_")[2])` with no `try` around them: a non-numeric
suffix raises `ValueError` out of the handler instead of dropping the
event. -/
theorem c3_counterexample :
    select_project_parse "project_abc" = .error "ValueError" ∧
    handle_entries_pagination_parse "entries_page_xyz" = .error "ValueError" :=
  ⟨rfl, rfl⟩

/-- C3 (amended): whenever the embedded argument (piece 1 of a
project-selection token, piece 2 of an entries-page token) is not a valid
Python integer literal, the handler's argument parse raises `ValueError`
(uncaught) — the event is not dropped silently. -/
theorem c3_malformed_arg_raises (data a : String) (hp : pyInt? a = none) :
    ((splitUnderscore data).get? 1 = some a →
      select_project_parse data = .error "ValueError") ∧
    ((splitUnderscore data).get? 2 = some a →
      handle_entries_pagination_parse data = .error "ValueError") := by
  constructor
  · intro hidx
    unfold select_project_parse
    rcases hsplit : splitUnderscore data with _ | ⟨x, _ | ⟨b, rest⟩⟩ <;>
      rw [hsplit] at hidx <;> simp_all
  · intro hidx
    unfold handle_entries_pagination_parse
    rcases hsplit : splitUnderscore data with _ | ⟨x, _ | ⟨b, _ | ⟨c2, rest⟩⟩⟩ <;>
      rw [hsplit] at hidx <;> simp_all

/-- C3 witness: the entries-page token with argument "5x". -/
theorem c3_malformed_arg_raises_witness :
    handle_entries_pagination_parse "entries_page_5x" = .error "ValueError" :=
  (c3_malformed_arg_raises "entries_page_5x" "5x" (by decide)).2 (by decide)

end TgNotify

namespace TgNotify

/-! ## Claim C4 -/

/-- C4: in the custom-report range sub-flow with a start date stored,
selecting an end date `d` is rejected — answered with the matching
notice, context (hence the stored start) untouched, no report — exactly
when `d` is before the start or the span exceeds 365 days; otherwise the
report is generated for (start, d) and exactly the two range keys are
removed.  In particular 2024-06-10 → 2024-06-01 and
2024-01-01 → 2025-06-01 are rejected and 2024-01-01 → 2024-06-01 is
accepted. -/
theorem c4_report_range_validation :
    (∀ (userId : Nat) (ctx : Ctx) (start d : RDate) (f : String),
      ctx.report_start_date = some start →
      ctx.report_start_date_formatted = some f →
      isValidDate start = true → isValidDate d = true →
      ((dateLt d start = true ∨ 365 < dateSpanDays start d →
        (handle_report_cal_select_h userId ctx d).ctx = ctx ∧
        (handle_report_cal_select_h userId ctx d).ret = none ∧
        (handle_report_cal_select_h userId ctx d).raised = false ∧
        ((handle_report_cal_select_h userId ctx d).renders = [.reportEndBeforeStart] ∨
          (handle_report_cal_select_h userId ctx d).renders = [.reportSpanTooLong])) ∧
      (¬(dateLt d start = true ∨ 365 < dateSpanDays start d) →
        handle_report_cal_select_h userId ctx d =
          ⟨none,
            { ctx with report_start_date := none, report_start_date_formatted := none },
            [.reportGenerated (ctx.admin_target_user_id.getD userId) start d],
            false⟩))) ∧
    (handle_report_cal_select_h 7
        { report_start_date := some ⟨2024, 6, 10⟩,
          report_start_date_formatted := some "10.06.2024" } ⟨2024, 6, 1⟩ =
      ⟨none,
        { report_start_date := some ⟨2024, 6, 10⟩,
          report_start_date_formatted := some "10.06.2024" },
        [.reportEndBeforeStart], false⟩) ∧
    (handle_report_cal_select_h 7
        { report_start_date := some ⟨2024, 1, 1⟩,
          report_start_date_formatted := some "01.01.2024" } ⟨2025, 6, 1⟩ =
      ⟨none,
        { report_start_date := some ⟨2024, 1, 1⟩,
          report_start_date_formatted := some "01.01.2024" },
        [.reportSpanTooLong], false⟩) ∧
    handle_report_cal_select_h 7
        { report_start_date := some ⟨2024, 1, 1⟩,
          report_start_date_formatted := some "01.01.2024" } ⟨2024, 6, 1⟩ =
      ⟨none, {}, [.reportGenerated 7 ⟨2024, 1, 1⟩ ⟨2024, 6, 1⟩], false⟩ := by
  refine ⟨?_, by decide, by decide, by decide⟩
  intro userId ctx start d f hs hf hv1 hv2
  constructor
  · intro hrej
    rcases hrej with hlt | hspan
    · simp [handle_report_cal_select_h, hs, hf, hv1, hv2, hlt]
    · by_cases hlt : dateLt d start = true
      · simp [handle_report_cal_select_h, hs, hf, hv1, hv2, hlt]
      · simp [handle_report_cal_select_h, hs, hf, hv1, hv2, hlt, hspan]
  · intro hok
    have h1 : ¬ dateLt d start = true := fun h => hok (Or.inl h)
    have h2 : ¬ 365 < dateSpanDays start d := fun h => hok (Or.inr h)
    simp [handle_report_cal_select_h, hs, hf, hv1, hv2, h1, h2]

/-- C4 witness: an accepted 29-day range at a fresh concrete input. -/
theorem c4_report_range_validation_witness :
    handle_report_cal_select_h 3
        { report_start_date := some ⟨2024, 2, 1⟩,
          report_start_date_formatted := some "01.02.2024" } ⟨2024, 3, 1⟩ =
      ⟨none, {}, [.reportGenerated 3 ⟨2024, 2, 1⟩ ⟨2024, 3, 1⟩], false⟩ :=
  ((c4_report_range_validation.1 3
      { report_start_date := some ⟨2024, 2, 1⟩,
        report_start_date_formatted := some "01.02.2024" }
      ⟨2024, 2, 1⟩ ⟨2024, 3, 1⟩ "01.02.2024" rfl rfl (by decide) (by decide)).2
    (by decide))

/-! ## Claim C10 -/

/-- C10: a successfully completed custom-range report removes exactly the
two range keys and leaves every other context field unchanged; in
particular a stored `admin_target_user_id` survives, so subsequent
report and CSV-export actions still resolve to the impersonated target
id. -/
theorem c10_report_cleanup_frame (userId : Nat) (ctx : Ctx) (start d : RDate)
    (f : String)
    (hs : ctx.report_start_date = some start)
    (hf : ctx.report_start_date_formatted = some f)
    (hv1 : isValidDate start = true) (hv2 : isValidDate d = true)
    (hlt : ¬ dateLt d start = true) (hspan : ¬ 365 < dateSpanDays start d) :
    ((handle_report_cal_select_h userId ctx d).ctx.report_start_date = none ∧
     (handle_report_cal_select_h userId ctx d).ctx.report_start_date_formatted = none) ∧
    ((handle_report_cal_select_h userId ctx d).ctx.selected_project_id =
        ctx.selected_project_id ∧
     (handle_report_cal_select_h userId ctx d).ctx.selected_project_name =
        ctx.selected_project_name ∧
     (handle_report_cal_select_h userId ctx d).ctx.selected_hours =
        ctx.selected_hours ∧
     (handle_report_cal_select_h userId ctx d).ctx.description = ctx.description ∧
     (handle_report_cal_select_h userId ctx d).ctx.admin_target_user_id =
        ctx.admin_target_user_id ∧
     (handle_report_cal_select_h userId ctx d).ctx.admin_action = ctx.admin_action) ∧
    (∀ t : Nat, ctx.admin_target_user_id = some t →
      (handle_report_cal_select_h userId ctx d).renders =
        [.reportGenerated t start d] ∧
      report_target_user (handle_report_cal_select_h userId ctx d).ctx userId = t ∧
      export_csv_target_user (handle_report_cal_select_h userId ctx d).ctx userId =
        t) := by
  refine ⟨?_, ?_, ?_⟩
  · simp [handle_report_cal_select_h, hs, hf, hv1, hv2, hlt, hspan]
  · simp [handle_report_cal_select_h, hs, hf, hv1, hv2, hlt, hspan]
  · intro t ht
    simp [handle_report_cal_select_h, hs, hf, hv1, hv2, hlt, hspan, ht,
      report_target_user, export_csv_target_user]

/-- C10 witness: impersonated target 42 survives report completion. -/
theorem c10_report_cleanup_frame_witness :
    report_target_user
        (handle_report_cal_select_h 9
          { report_start_date := some ⟨2024, 2, 1⟩,
            report_start_date_formatted := some "01.02.2024",
            admin_target_user_id := some 42 } ⟨2024, 3, 1⟩).ctx 9 = 42 ∧
    export_csv_target_user
        (handle_report_cal_select_h 9
          { report_start_date := some ⟨2024, 2, 1⟩,
            report_start_date_formatted := some "01.02.2024",
            admin_target_user_id := some 42 } ⟨2024, 3, 1⟩).ctx 9 = 42 :=
  ⟨((c10_report_cleanup_frame 9
      { report_start_date := some ⟨2024, 2, 1⟩,
        report_start_date_formatted := some "01.02.2024",
        admin_target_user_id := some 42 }
      ⟨2024, 2, 1⟩ ⟨2024, 3, 1⟩ "01.02.2024" rfl rfl (by decide) (by decide)
      (by decide) (by decide)).2.2 42 rfl).2.1,
   ((c10_report_cleanup_frame 9
      { report_start_date := some ⟨2024, 2, 1⟩,
        report_start_date_formatted := some "01.02.2024",
        admin_target_user_id := some 42 }
      ⟨2024, 2, 1⟩ ⟨2024, 3, 1⟩ "01.02.2024" rfl rfl (by decide) (by decide)
      (by decide) (by decide)).2.2 42 rfl).2.2⟩

end TgNotify

namespace TgNotify

/-! ## Claim C5 -/

/-- C5: one previous/next navigation computes the adjacent month
(January wrapping to December of the previous year, December to January
of the next) and is rejected — notice, no state change — exactly when
the resulting year leaves `[currentYear - 1, currentYear]` in the
add-entry calendar, or `[currentYear - 2, currentYear + 1]` in the
report calendar; in particular "previous" from January of
`currentYear - 1` in the add-entry calendar is rejected. -/
theorem c5_calendar_nav_bounds (env : Env) (ctx : Ctx) (pname : String) (hv : ℚ)
    (isPrev : Bool) (y m : Int) (hm1 : 1 ≤ m) (hm2 : m ≤ 12)
    (hname : ctx.selected_project_name = some pname)
    (hhours : ctx.selected_hours = some hv) :
    ((m = 1 → calNavTarget true y m = (y - 1, 12)) ∧
     (m ≠ 1 → calNavTarget true y m = (y, m - 1)) ∧
     (m = 12 → calNavTarget false y m = (y + 1, 1)) ∧
     (m ≠ 12 → calNavTarget false y m = (y, m + 1))) ∧
    (handle_calendar_nav_h env ctx isPrev y m =
        ⟨none, ctx, [.unavailablePeriod], false⟩ ↔
      ((calNavTarget isPrev y m).1 < env.currentYear - 1 ∨
        env.currentYear < (calNavTarget isPrev y m).1)) ∧
    (¬((calNavTarget isPrev y m).1 < env.currentYear - 1 ∨
        env.currentYear < (calNavTarget isPrev y m).1) →
      handle_calendar_nav_h env ctx isPrev y m =
        ⟨some .selectingDate, ctx,
          [.calendarView (calNavTarget isPrev y m).1 (calNavTarget isPrev y m).2],
          false⟩) ∧
    (handle_report_cal_nav_h env ctx isPrev y m =
        ⟨none, ctx, [.unavailablePeriod], false⟩ ↔
      ((calNavTarget isPrev y m).1 < env.currentYear - 2 ∨
        env.currentYear + 1 < (calNavTarget isPrev y m).1)) ∧
    (¬((calNavTarget isPrev y m).1 < env.currentYear - 2 ∨
        env.currentYear + 1 < (calNavTarget isPrev y m).1) →
      handle_report_cal_nav_h env ctx isPrev y m =
        ⟨none, ctx,
          [.reportCalendarView (calNavTarget isPrev y m).1
            (calNavTarget isPrev y m).2],
          false⟩) ∧
    handle_calendar_nav_h env ctx true (env.currentYear - 1) 1 =
      ⟨none, ctx, [.unavailablePeriod], false⟩ := by
  refine ⟨⟨?_, ?_, ?_, ?_⟩, ?_, ?_, ?_, ?_, ?_⟩
  · intro h
    subst h
    simp [calNavTarget]
  · intro h
    unfold calNavTarget
    rw [if_pos rfl, if_neg (by omega)]
  · intro h
    subst h
    simp [calNavTarget]
  · intro h
    unfold calNavTarget
    rw [if_neg (by simp), if_neg (by omega)]
  · by_cases hb : (calNavTarget isPrev y m).1 < env.currentYear - 1 ∨
        env.currentYear < (calNavTarget isPrev y m).1
    · simp [handle_calendar_nav_h, hb]
    · simp [handle_calendar_nav_h, hb, hname, hhours]
  · intro hb
    simp [handle_calendar_nav_h, hb, hname, hhours]
  · by_cases hb : (calNavTarget isPrev y m).1 < env.currentYear - 2 ∨
        env.currentYear + 1 < (calNavTarget isPrev y m).1
    · simp [handle_report_cal_nav_h, hb]
    · simp [handle_report_cal_nav_h, hb]
  · intro hb
    simp [handle_report_cal_nav_h, hb]
  · have ht : calNavTarget true (env.currentYear - 1) 1 =
        (env.currentYear - 2, 12) := by
      simp [calNavTarget]
      omega
    simp [handle_calendar_nav_h, ht]

/-- C5 witness: January of the current year navigating back to December
of the previous year, inside the allowed bound. -/
theorem c5_calendar_nav_bounds_witness :
    handle_calendar_nav_h envOk ctxFull true 2024 1 =
      ⟨some .selectingDate, ctxFull, [.calendarView 2023 12], false⟩ :=
  (c5_calendar_nav_bounds envOk ctxFull "P" (mkRat 2 1) true 2024 1 (by decide)
      (by decide) rfl rfl).2.2.1 (by decide)

end TgNotify


namespace TgNotify

/-! ## Claim C6 -/

/-- The day-cell grid is the `monthcalendar` grid mapped through the
cell renderer of `generate_calendar`. -/
theorem gridGet_day (today : RDate) (year month i j day : Nat)
    (hmc : mcGet year month i j = some day) :
    gridGet (calendarDayRows today year month) i j =
      some (if day = 0 then (⟨" ", .ignore⟩ : CalBtn)
        else if dateLt today ⟨year, month, day⟩ then
          ⟨"(" ++ toString day ++ ")", .ignore⟩
        else ⟨toString day, .select year month day⟩) := by
  have hrows : calendarDayRows today year month =
      (monthcalendar year month).map (fun week =>
        week.map (fun d =>
          if d = 0 then (⟨" ", .ignore⟩ : CalBtn)
          else if dateLt today ⟨year, month, d⟩ then
            ⟨"(" ++ toString d ++ ")", .ignore⟩
          else ⟨toString d, .select year month d⟩)) := rfl
  unfold mcGet at hmc
  unfold gridGet
  rw [hrows, List.get?_map]
  rcases hrow : (monthcalendar year month).get? i with _ | row <;>
    rw [hrow] at hmc
  · simp at hmc
  · simp only [Option.some_bind] at hmc
    rw [List.get?_eq_getElem?] at hmc
    simp [List.get?_map, hmc]

/-- C6: in every grid of the past-only calendar, a day-0 padding cell is
an inert placeholder (`cal_ignore`, no actionable token), a day after
`today` is an inert parenthesised placeholder, and every other day is a
selectable button whose token carries the literal (year, month, day).
For today = 2024-06-15: day 16 of June 2024 is disabled, day 15 is
selectable. -/
theorem c6_calendar_day_cells :
    (∀ (today : RDate) (year month i j day : Nat),
      mcGet year month i j = some day →
      (day = 0 →
        gridGet (calendarDayRows today year month) i j = some ⟨" ", .ignore⟩) ∧
      (day ≠ 0 → dateLt today ⟨year, month, day⟩ = true →
        gridGet (calendarDayRows today year month) i j =
          some ⟨"(" ++ toString day ++ ")", .ignore⟩) ∧
      (day ≠ 0 → dateLt today ⟨year, month, day⟩ = false →
        gridGet (calendarDayRows today year month) i j =
          some ⟨toString day, .select year month day⟩)) ∧
    gridGet (calendarDayRows ⟨2024, 6, 15⟩ 2024 6) 2 6 = some ⟨"(16)", .ignore⟩ ∧
    gridGet (calendarDayRows ⟨2024, 6, 15⟩ 2024 6) 2 5 =
      some ⟨"15", .select 2024 6 15⟩ := by
  refine ⟨?_, by decide, by decide⟩
  intro today year month i j day hmc
  refine ⟨?_, ?_, ?_⟩
  · intro h0
    subst h0
    rw [gridGet_day today year month i j 0 hmc]
    simp
  · intro h0 hfut
    rw [gridGet_day today year month i j day hmc]
    simp [h0, hfut]
  · intro h0 hpast
    rw [gridGet_day today year month i j day hmc]
    simp [h0, hpast]

/-- C6 witness: the padding cell at the top-left of June 2024 (day 0). -/
theorem c6_calendar_day_cells_witness :
    gridGet (calendarDayRows ⟨2024, 6, 15⟩ 2024 6) 0 0 = some ⟨" ", .ignore⟩ :=
  (c6_calendar_day_cells.1 ⟨2024, 6, 15⟩ 2024 6 0 0 0 (by decide)).1 rfl

/-! ## Claim C7 -/

/-- C7: `totalPages` is the ceiling of total/pageSize floored at one page
(the projects keyboard computes it for every total; the entries view only
computes it on a nonempty slice); with no items no navigation tokens
render at all; and for 12 entries, page size 5, page 2 the view has
offset 10, two visible entries, three pages, a previous-page and no
next-page token. -/
theorem c7_pagination :
    (∀ n ps : Nat, 0 < ps →
      get_projects_total_pages n ps = max 1 ((n + ps - 1) / ps)) ∧
    (∀ p : Nat, show_my_entries_page [] p = .empty) ∧
    (∀ ps : Nat, get_projects_nav 0 ps 0 = (false, false)) ∧
    (∀ (entries : List Nat) (p off vis tp : Nat) (hp hn : Bool),
      show_my_entries_page entries p = .pageView off vis tp hp hn →
      tp = (entries.length + 5 - 1) / 5 ∧ off = p * 5 ∧
        hp = decide (0 < p) ∧ hn = decide (p < tp - 1)) ∧
    show_my_entries_page (List.range 12) 2 = .pageView 10 2 3 true false := by
  refine ⟨?_, ?_, ?_, ?_, by decide⟩
  · intro n ps hps
    unfold get_projects_total_pages
    rcases n with _ | k
    · simp [Nat.div_eq_of_lt (show ps - 1 < ps by omega)]
    · rw [if_neg (Nat.succ_ne_zero k)]
      have h2 : k + 1 + ps - 1 = k + ps := by omega
      have h1 : k + 1 - 1 = k := rfl
      rw [h1, h2, Nat.add_div_right k hps,
        Nat.max_eq_right (Nat.succ_le_succ (Nat.zero_le _))]
  · intro p
    simp [show_my_entries_page]
  · intro ps
    simp [get_projects_nav, get_projects_total_pages]
  · intro entries p off vis tp hp hn h
    by_cases he : ((entries.drop (p * 5)).take 5).isEmpty
    · simp [show_my_entries_page, he] at h
    · simp [show_my_entries_page, he] at h
      obtain ⟨h1, h2, h3, h4, h5⟩ := h
      subst h1
      subst h3
      refine ⟨rfl, rfl, by rw [h4], by rw [h5]⟩

/-- C7 witness: page-count formula at 12 items, page size 5. -/
theorem c7_pagination_witness :
    get_projects_total_pages 12 5 = max 1 ((12 + 5 - 1) / 5) :=
  c7_pagination.1 12 5 (by decide)

end TgNotify
